import Mathlib

/-!
Shallow embedding of the files-manager core (controllers in
src/controllers/AuthController.js: AuthController.getDisconnect and
FilesController.postUpload / putPublish / putUnpublish / getShow /
getIndex / getFile).

The Mongo `files` collection is a list of documents in creation order
(`find` without a sort returns natural order; `insertOne` appends).
The Redis session store is an association list token -> userId.  The
blob store (files written under FOLDER_PATH) is an association list
localPath -> bytes.  The Bull queue is the list of enqueue calls
observed, each carrying the payload and the retry options passed to
`fileQueue.add`.  Generated identifiers (Mongo ObjectId of an insert,
the uuidv4 used for the local path) are passed in as parameters, since
they are produced by external generators.  Base64 transport decoding of
the request body is the HTTP layer's concern; `data` carries the decoded
content bytes, with JS falsiness of the raw string (absent or empty)
mirrored by absent-or-empty bytes.
-/

namespace FilesManager

/-- JSON scalar values appearing in response bodies. -/
inductive JVal where
  | s (v : String)
  | b (v : Bool)
deriving DecidableEq, Repr

/-- A JSON object response body: ordered key/value pairs. -/
abbrev Obj := List (String × JVal)

/-- A document of the `files` collection.  `localPath` is present iff the
document was inserted by the non-folder branch of postUpload. -/
structure FileDoc where
  fid : String
  userId : String
  name : String
  ftype : String
  isPublic : Bool
  parentId : String
  localPath : Option String
deriving DecidableEq, Repr

/-- One observed `fileQueue.add` call: payload fields and retry options
(`attempts`, fixed backoff delay in milliseconds). -/
structure Job where
  fileId : String
  userId : String
  attempts : Nat
  delayMs : Nat
deriving DecidableEq, Repr

/-- The durable state touched by the controllers. -/
structure St where
  files : List FileDoc
  sessions : List (String × String)
  blobs : List (String × List Nat)
  jobs : List Job
deriving DecidableEq, Repr

/-- The observable HTTP outcome of a controller call. -/
inductive Rsp where
  | doc (status : Nat) (body : Obj)
  | docs (status : Nat) (body : List FileDoc)
  | raw (status : Nat) (content : List Nat)
  | empty (status : Nat)
  | fail (status : Nat) (error : String)
deriving DecidableEq, Repr

/-- Embeds `redisClient.get ("auth_" ++ token)`. -/
def sget (st : St) (t : String) : Option String :=
  (st.sessions.find? (fun p => p.1 == t)).map (fun p => p.2)

/-- Embeds `redisClient.del ("auth_" ++ token)`: removes the mapping. -/
def sdel (l : List (String × String)) (t : String) : List (String × String) :=
  l.filter (fun p => p.1 != t)

/-- The token-to-identity resolution every controller performs:
`if (!token) ...` (absent or empty header is falsy) followed by
`redisClient.get`, with a falsy stored value also treated as no
identity (`if (!userId) ...`). -/
def tokenResolve (st : St) (tok : Option String) : Option String :=
  match tok with
  | none => none
  | some t =>
    if t == "" then none
    else
      match sget st t with
      | none => none
      | some u => if u == "" then none else some u

/-- Embeds `filesCollection().findOne ( _id )`. -/
def findById (l : List FileDoc) (fid : String) : Option FileDoc :=
  l.find? (fun d => d.fid == fid)

/-- Embeds `fs.existsSync` plus `fs.readFileSync` on the blob store. -/
def getBlob (st : St) (lp : String) : Option (List Nat) :=
  (st.blobs.find? (fun p => p.1 == lp)).map (fun p => p.2)

/-- JS truthiness of an optional string field: absent or empty is falsy. -/
def truthyS (x : Option String) : Bool :=
  match x with
  | none => false
  | some s => s != ""

/-- JS truthiness of the `data` field, carried as decoded bytes: the raw
base64 string is falsy exactly when absent or empty, i.e. when the
decoded bytes are absent or empty. -/
def truthyD (x : Option (List Nat)) : Bool :=
  match x with
  | some (_ :: _) => true
  | _ => false

/-- Embeds `req.body.parentId || '0'` (and the same defaulting for the
query parameter of getIndex). -/
def parentRef (p : Option String) : String :=
  match p with
  | none => "0"
  | some s => if s == "" then "0" else s

/-- Embeds Mongo `updateOne ( _id )`: rewrites the first document whose
id matches. -/
def updateFirst (l : List FileDoc) (fid : String) (g : FileDoc → FileDoc) :
    List FileDoc :=
  match l with
  | [] => []
  | d :: t => if d.fid == fid then g d :: t else d :: updateFirst t fid g

/-- Serialization of a stored document by `res.json(file)`: every stored
field appears, including `localPath` when the document has one. -/
def docJson (d : FileDoc) : Obj :=
  [("_id", JVal.s d.fid), ("userId", JVal.s d.userId),
   ("name", JVal.s d.name), ("type", JVal.s d.ftype),
   ("isPublic", JVal.b d.isPublic), ("parentId", JVal.s d.parentId)]
  ++ (match d.localPath with
      | some lp => [("localPath", JVal.s lp)]
      | none => [])

/-- The 201 body of postUpload: `{ id: insertedId, ...folderData }` —
the spread of `folderData`, which never contains `localPath`. -/
def uploadJson (d : FileDoc) : Obj :=
  [("id", JVal.s d.fid), ("userId", JVal.s d.userId),
   ("name", JVal.s d.name), ("type", JVal.s d.ftype),
   ("isPublic", JVal.b d.isPublic), ("parentId", JVal.s d.parentId)]

/-- The create request body plus the X-Token header. -/
structure UpReq where
  token : Option String
  name : Option String
  type : Option String
  isPublic : Option Bool
  data : Option (List Nat)
  parentId : Option String
deriving DecidableEq, Repr

/-- Embeds AuthController.getDisconnect: missing or falsy token gives
401, an unresolved token gives 401, otherwise the mapping is deleted
and 204 is returned. -/
def getDisconnect (st : St) (tok : Option String) : Rsp × St :=
  match tok with
  | none => (Rsp.fail 401 "Unauthorized", st)
  | some t =>
    if t == "" then (Rsp.fail 401 "Unauthorized", st)
    else
      match sget st t with
      | none => (Rsp.fail 401 "Unauthorized", st)
      | some _ => (Rsp.empty 204, { st with sessions := sdel st.sessions t })

/-- The insertion tail of postUpload, after every validation passed:
folder branch inserts a metadata-only document (the `folderData` object)
and answers 201; the file/image branch writes the blob at
FOLDER_PATH/uuid, inserts the document with `localPath`, and for image
enqueues one thumbnail job with `attempts 3` and a fixed 5000 ms
backoff delay.  The 201 body is `id` plus the `folderData` spread in
both branches, never `localPath`. -/
def insertNode (st : St) (rq : UpReq) (userId pid newId fileUuid : String) :
    Rsp × St :=
  if rq.type.getD "" = "folder" then
    (Rsp.doc 201 (uploadJson
        ⟨newId, userId, rq.name.getD "", rq.type.getD "",
         rq.isPublic.getD false, pid, none⟩),
     { st with files := st.files ++
         [⟨newId, userId, rq.name.getD "", rq.type.getD "",
           rq.isPublic.getD false, pid, none⟩] })
  else
    (Rsp.doc 201 (uploadJson
        ⟨newId, userId, rq.name.getD "", rq.type.getD "",
         rq.isPublic.getD false, pid,
         some ("/tmp/files_manager/" ++ fileUuid)⟩),
     { st with
         files := st.files ++
           [⟨newId, userId, rq.name.getD "", rq.type.getD "",
             rq.isPublic.getD false, pid,
             some ("/tmp/files_manager/" ++ fileUuid)⟩],
         blobs := st.blobs ++
           [("/tmp/files_manager/" ++ fileUuid, rq.data.getD [])],
         jobs := if rq.type.getD "" = "image" then
             st.jobs ++ [⟨newId, userId, 3, 5000⟩]
           else st.jobs })

/-- Embeds FilesController.postUpload.  `newId` is the ObjectId Mongo
assigns to the insert, `fileUuid` the uuidv4 naming the blob. -/
def postUpload (st : St) (rq : UpReq) (newId fileUuid : String) : Rsp × St :=
  match tokenResolve st rq.token with
  | none => (Rsp.fail 401 "Unauthorized", st)
  | some userId =>
    if truthyS rq.name = false then (Rsp.fail 400 "Missing name", st)
    else if (rq.type.getD "") ∉ (["folder", "file", "image"] : List String) then
      (Rsp.fail 400 "Missing type", st)
    else if truthyD rq.data = false ∧ rq.type.getD "" ≠ "folder" then
      (Rsp.fail 400 "Missing data", st)
    else if parentRef rq.parentId = "0" then
      insertNode st rq userId (parentRef rq.parentId) newId fileUuid
    else
      match findById st.files (parentRef rq.parentId) with
      | none => (Rsp.fail 400 "Parent not found", st)
      | some pf =>
        if pf.ftype = "folder" then
          insertNode st rq userId (parentRef rq.parentId) newId fileUuid
        else (Rsp.fail 400 "Parent is not a folder", st)

/-- Embeds FilesController.putPublish: findOne on (id, owner), then
updateOne on id alone setting `isPublic := true`, then findOne on id
for the response body. -/
def putPublish (st : St) (tok : Option String) (fileId : String) : Rsp × St :=
  match tokenResolve st tok with
  | none => (Rsp.fail 401 "Unauthorized", st)
  | some userId =>
    match st.files.find? (fun d => d.fid == fileId && d.userId == userId) with
    | none => (Rsp.fail 404 "Not found", st)
    | some _ =>
      match findById
          (updateFirst st.files fileId (fun d => { d with isPublic := true }))
          fileId with
      | some uf =>
        (Rsp.doc 200 (docJson uf),
         { st with files := (updateFirst st.files fileId
             (fun d => { d with isPublic := true })) })
      | none =>
        (Rsp.doc 200 [],
         { st with files := (updateFirst st.files fileId
             (fun d => { d with isPublic := true })) })

/-- Embeds FilesController.putUnpublish, identical to putPublish with
`isPublic := false`. -/
def putUnpublish (st : St) (tok : Option String) (fileId : String) : Rsp × St :=
  match tokenResolve st tok with
  | none => (Rsp.fail 401 "Unauthorized", st)
  | some userId =>
    match st.files.find? (fun d => d.fid == fileId && d.userId == userId) with
    | none => (Rsp.fail 404 "Not found", st)
    | some _ =>
      match findById
          (updateFirst st.files fileId (fun d => { d with isPublic := false }))
          fileId with
      | some uf =>
        (Rsp.doc 200 (docJson uf),
         { st with files := (updateFirst st.files fileId
             (fun d => { d with isPublic := false })) })
      | none =>
        (Rsp.doc 200 [],
         { st with files := (updateFirst st.files fileId
             (fun d => { d with isPublic := false })) })

/-- Embeds FilesController.getShow: findOne on the pair (id, requester's
user id); a miss — including a public document owned by someone else —
answers 404. -/
def getShow (st : St) (tok : Option String) (fileId : String) : Rsp :=
  match tokenResolve st tok with
  | none => Rsp.fail 401 "Unauthorized"
  | some userId =>
    match st.files.find? (fun d => d.fid == fileId && d.userId == userId) with
    | none => Rsp.fail 404 "Not found"
    | some f => Rsp.doc 200 (docJson f)

/-- Embeds FilesController.getIndex: filter by (owner, parent), then
skip `page * 20` and limit 20, in the collection's natural
(creation) order. -/
def getIndex (st : St) (tok : Option String) (parentIdQ : Option String)
    (page : Nat) : Rsp :=
  match tokenResolve st tok with
  | none => Rsp.fail 401 "Unauthorized"
  | some userId =>
    Rsp.docs 200
      (((st.files.filter (fun d =>
            d.userId == userId && d.parentId == parentRef parentIdQ)).drop
          (page * 20)).take 20)

/-- The tail of getFile past the access checks: the blob must exist
(`fs.existsSync`) or 404, then its bytes are read and returned.  A
stored document with no `localPath` would make `existsSync(undefined)`
throw, caught as a 500. -/
def getFileServe (st : St) (f : FileDoc) : Rsp :=
  match f.localPath with
  | none => Rsp.fail 500 "Internal Server Error"
  | some lp =>
    match getBlob st lp with
    | none => Rsp.fail 404 "Not found"
    | some bs => Rsp.raw 200 bs

/-- Embeds FilesController.getFile: lookup by id alone; a folder answers
400 before any visibility or identity is consulted; a private document
requires the caller to resolve to the owner, a miss answering the same
404 as an absent document; then the content is served. -/
def getFile (st : St) (tok : Option String) (fileId : String) : Rsp :=
  match findById st.files fileId with
  | none => Rsp.fail 404 "Not found"
  | some f =>
    if f.ftype == "folder" then Rsp.fail 400 "A folder doesn't have content"
    else if f.isPublic = false then
      match tokenResolve st tok with
      | none => Rsp.fail 404 "Not found"
      | some uid =>
        if uid ≠ f.userId then Rsp.fail 404 "Not found"
        else getFileServe st f
    else getFileServe st f

/-- HTTP status of a response outcome. -/
def rspStatus : Rsp → Nat
  | Rsp.doc s _ => s
  | Rsp.docs s _ => s
  | Rsp.raw s _ => s
  | Rsp.empty s => s
  | Rsp.fail s _ => s

/-- Every field of a document except the visibility flag. -/
def frameOf (d : FileDoc) :
    String × String × String × String × String × Option String :=
  (d.fid, d.userId, d.name, d.ftype, d.parentId, d.localPath)

/-- The window getIndex serves for a resolved owner, parent reference and
page: filter, skip `page * 20`, limit 20. -/
def pageOf (st : St) (uid pid : String) (p : Nat) : List FileDoc :=
  ((st.files.filter (fun d => d.userId == uid && d.parentId == pid)).drop
    (p * 20)).take 20

/-- A private file owned by user `ua`, contents "hello". -/
def demoDoc : FileDoc :=
  ⟨"f1", "ua", "hello.txt", "file", false, "0",
   some "/tmp/files_manager/u1"⟩

/-- A public file owned by user `ua`. -/
def demoPub : FileDoc :=
  ⟨"f2", "ua", "pub.txt", "file", true, "0",
   some "/tmp/files_manager/u2"⟩

/-- A private folder owned by user `ub`. -/
def demoFolder : FileDoc := ⟨"d1", "ub", "Docs", "folder", false, "0", none⟩

/-- A concrete store: two users `ua`/`ub` with live tokens `ta`/`tb`,
one folder, one private file with its blob, one public file. -/
def demoSt : St :=
  { files := [demoFolder, demoDoc, demoPub],
    sessions := [("ta", "ua"), ("tb", "ub")],
    blobs := [("/tmp/files_manager/u1", [104, 101, 108, 108, 111]),
              ("/tmp/files_manager/u2", [112])],
    jobs := [] }

/-- A create request with no name field. -/
def rqNoName : UpReq := ⟨some "ta", none, some "file", none, some [1], none⟩

/-- A create request for an image at the root. -/
def rqImage : UpReq :=
  ⟨some "ta", some "pic.png", some "image", none, some [7, 8], none⟩

/-- A create request for a plain file at the root. -/
def rqFileRoot : UpReq :=
  ⟨some "ta", some "b.txt", some "file", none, some [9], none⟩

/-- A create request by user `ua` under the private folder of user `ub`. -/
def rqOtherParent : UpReq :=
  ⟨some "ta", some "a.txt", some "file", none, some [104], some "d1"⟩

/-- A create request whose kind is outside the allowed enumeration. -/
def rqBadType : UpReq :=
  ⟨some "ta", some "x", some "blob", none, some [1], none⟩

/-- A create request for a file with no content bytes. -/
def rqNoData : UpReq := ⟨some "ta", some "x", some "file", none, none, none⟩

/-- A create request naming a nonexistent parent. -/
def rqGhostParent : UpReq :=
  ⟨some "ta", some "x", some "file", none, some [1], some "nope"⟩

/-- A create request whose parent is a plain file, not a folder. -/
def rqFileParent : UpReq :=
  ⟨some "ta", some "x", some "file", none, some [1], some "f1"⟩

/-- A create request for a folder at the root. -/
def rqFolder : UpReq :=
  ⟨some "ta", some "Stuff", some "folder", none, none, none⟩

/-! Helper lemmas about the store primitives. -/

lemma findById_none_of_not_mem (l : List FileDoc) (fid : String)
    (h : fid ∉ l.map FileDoc.fid) : findById l fid = none := by
  induction l with
  | nil => rfl
  | cons d t ih =>
    simp only [List.map_cons, List.mem_cons, not_or] at h
    have hd : (d.fid == fid) = false :=
      beq_eq_false_iff_ne.mpr (fun he => h.1 he.symm)
    unfold findById
    rw [List.find?_cons_of_neg _ (by simp [hd])]
    exact ih h.2

lemma find?_and_none (l : List FileDoc) (fid : String) (p : FileDoc → Bool)
    (h : fid ∉ l.map FileDoc.fid) :
    l.find? (fun d => d.fid == fid && p d) = none := by
  induction l with
  | nil => rfl
  | cons d t ih =>
    simp only [List.map_cons, List.mem_cons, not_or] at h
    have hd : (d.fid == fid) = false :=
      beq_eq_false_iff_ne.mpr (fun he => h.1 he.symm)
    rw [List.find?_cons_of_neg _ (by simp [hd])]
    exact ih h.2

lemma find?_and_of_findById (l : List FileDoc) (fid : String)
    (p : FileDoc → Bool) (f : FileDoc)
    (hnd : (l.map FileDoc.fid).Nodup)
    (hf : findById l fid = some f) :
    l.find? (fun d => d.fid == fid && p d) =
      if p f = true then some f else none := by
  induction l with
  | nil => simp [findById] at hf
  | cons d t ih =>
    rw [List.map_cons, List.nodup_cons] at hnd
    by_cases hd : (d.fid == fid) = true
    · have hfd : f = d := by
        unfold findById at hf
        rw [@List.find?_cons_of_pos _ (fun d => d.fid == fid) d t hd] at hf
        exact (Option.some_inj.mp hf).symm
      subst hfd
      have hmem : fid ∉ t.map FileDoc.fid := by
        rw [← beq_iff_eq.mp hd]; exact hnd.1
      by_cases hp : p f = true
      · rw [if_pos hp, List.find?_cons_of_pos _ (by simp [hd, hp])]
      · rw [if_neg hp,
          List.find?_cons_of_neg _
            (by simp only [Bool.and_eq_true]; exact fun hc => hp hc.2)]
        exact find?_and_none t fid p hmem
    · have hf' : findById t fid = some f := by
        unfold findById at hf
        rwa [@List.find?_cons_of_neg _ (fun d => d.fid == fid) d t hd] at hf
      rw [List.find?_cons_of_neg _
        (by simp only [Bool.and_eq_true]; exact fun hc => hd hc.1)]
      exact ih hnd.2 hf'

lemma findById_updateFirst (l : List FileDoc) (fid : String)
    (g : FileDoc → FileDoc) (hg : ∀ d, (g d).fid = d.fid) :
    findById (updateFirst l fid g) fid = (findById l fid).map g := by
  induction l with
  | nil => rfl
  | cons d t ih =>
    by_cases hd : (d.fid == fid) = true
    · unfold updateFirst findById
      rw [if_pos hd,
        @List.find?_cons_of_pos _ (fun d => d.fid == fid) (g d) t
          (show ((g d).fid == fid) = true by rw [hg d]; exact hd),
        @List.find?_cons_of_pos _ (fun d => d.fid == fid) d t hd]
      rfl
    · unfold updateFirst findById
      rw [if_neg hd,
        @List.find?_cons_of_neg _ (fun d => d.fid == fid) d
          (updateFirst t fid g) hd,
        @List.find?_cons_of_neg _ (fun d => d.fid == fid) d t hd]
      exact ih

lemma updateFirst_map_frameOf (l : List FileDoc) (fid : String)
    (g : FileDoc → FileDoc) (hg : ∀ d, frameOf (g d) = frameOf d) :
    (updateFirst l fid g).map frameOf = l.map frameOf := by
  induction l with
  | nil => rfl
  | cons d t ih =>
    by_cases hd : (d.fid == fid) = true
    · unfold updateFirst
      rw [if_pos hd]
      simp [hg d]
    · unfold updateFirst
      rw [if_neg hd]
      simp [ih]

lemma sget_none_of_absent (st : St) (t : String) (h : sget st t = none) :
    st.sessions.find? (fun p => p.1 == t) = none := by
  unfold sget at h
  exact Option.map_eq_none'.mp h

lemma sdel_of_absent (st : St) (t : String) (h : sget st t = none) :
    sdel st.sessions t = st.sessions := by
  have hfind := sget_none_of_absent st t h
  unfold sdel
  rw [List.filter_eq_self]
  intro p hp
  have := List.find?_eq_none.mp hfind p hp
  simp only [bne_iff_ne, ne_eq]
  simpa using this

lemma sdel_idem (l : List (String × String)) (t : String) :
    sdel (sdel l t) t = sdel l t := by
  unfold sdel
  exact List.filter_eq_self.mpr (fun a ha => (List.mem_filter.mp ha).2)

lemma getDisconnect_absent (st : St) (t : String) (h : sget st t = none) :
    getDisconnect st (some t) = (Rsp.fail 401 "Unauthorized", st) := by
  simp only [getDisconnect]
  by_cases h0 : (t == "") = true
  · rw [if_pos h0]
  · rw [if_neg h0, h]

/-! Helper lemmas about the controller operations. -/

lemma tokenResolve_only_sessions (fls fls' : List FileDoc)
    (ss : List (String × String)) (bl bl' : List (String × List Nat))
    (js js' : List Job) (tok : Option String) :
    tokenResolve ⟨fls, ss, bl, js⟩ tok = tokenResolve ⟨fls', ss, bl', js'⟩ tok :=
  rfl

lemma getShow_resolved (st : St) (t fid uid : String) (f : FileDoc)
    (hres : tokenResolve st (some t) = some uid)
    (hnd : (st.files.map FileDoc.fid).Nodup)
    (hf : findById st.files fid = some f) :
    getShow st (some t) fid =
      if (f.userId == uid) = true then Rsp.doc 200 (docJson f)
      else Rsp.fail 404 "Not found" := by
  simp only [getShow, hres]
  rw [find?_and_of_findById st.files fid (fun d => d.userId == uid) f hnd hf]
  by_cases hp : (f.userId == uid) = true
  · rw [if_pos hp, if_pos hp]
  · rw [if_neg hp, if_neg hp]

lemma putPublish_owner (st : St) (t fid : String) (f : FileDoc)
    (hres : tokenResolve st (some t) = some f.userId)
    (hnd : (st.files.map FileDoc.fid).Nodup)
    (hf : findById st.files fid = some f) :
    putPublish st (some t) fid =
      (Rsp.doc 200 (docJson { f with isPublic := true }),
       { st with files := (updateFirst st.files fid
           (fun d => { d with isPublic := true })) }) := by
  simp only [putPublish, hres]
  rw [find?_and_of_findById st.files fid
    (fun d => d.userId == f.userId) f hnd hf]
  rw [if_pos (by simp : (f.userId == f.userId) = true)]
  rw [findById_updateFirst st.files fid
    (fun d => { d with isPublic := true }) (fun d => rfl), hf]
  rfl

lemma putUnpublish_owner (st : St) (t fid : String) (f : FileDoc)
    (hres : tokenResolve st (some t) = some f.userId)
    (hnd : (st.files.map FileDoc.fid).Nodup)
    (hf : findById st.files fid = some f) :
    putUnpublish st (some t) fid =
      (Rsp.doc 200 (docJson { f with isPublic := false }),
       { st with files := (updateFirst st.files fid
           (fun d => { d with isPublic := false })) }) := by
  simp only [putUnpublish, hres]
  rw [find?_and_of_findById st.files fid
    (fun d => d.userId == f.userId) f hnd hf]
  rw [if_pos (by simp : (f.userId == f.userId) = true)]
  rw [findById_updateFirst st.files fid
    (fun d => { d with isPublic := false }) (fun d => rfl), hf]
  rfl

lemma getFile_ok (st : St) (tok : Option String) (fid lp : String)
    (bs : List Nat) (f : FileDoc)
    (hf : findById st.files fid = some f)
    (hty : f.ftype ≠ "folder")
    (hauth : f.isPublic = true ∨ tokenResolve st tok = some f.userId)
    (hlp : f.localPath = some lp)
    (hb : getBlob st lp = some bs) :
    getFile st tok fid = Rsp.raw 200 bs := by
  have hserve : getFileServe st f = Rsp.raw 200 bs := by
    simp only [getFileServe, hlp, hb]
  simp only [getFile, hf]
  rw [if_neg (by simp [hty])]
  rcases hauth with hp | ho
  · rw [if_neg (by simp [hp])]
    exact hserve
  · by_cases hip : f.isPublic = false
    · rw [if_pos hip, ho]
      simp [hserve]
    · rw [if_neg hip]
      exact hserve

lemma getFile_denied (st : St) (tok : Option String) (fid : String)
    (f : FileDoc)
    (hf : findById st.files fid = some f)
    (hty : f.ftype ≠ "folder")
    (hpriv : f.isPublic = false)
    (hno : tokenResolve st tok ≠ some f.userId) :
    getFile st tok fid = Rsp.fail 404 "Not found" := by
  simp only [getFile, hf]
  rw [if_neg (by simp [hty]), if_pos hpriv]
  cases ht : tokenResolve st tok with
  | none => rfl
  | some uid =>
    have hne : uid ≠ f.userId := by intro he; subst he; exact hno ht
    simp [hne]

lemma insertNode_fst (st st' : St) (rq : UpReq) (uid pid a b : String) :
    (insertNode st rq uid pid a b).1 = (insertNode st' rq uid pid a b).1 := by
  unfold insertNode
  by_cases h : rq.type.getD "" = "folder" <;> simp [h]

lemma insertNode_jobs_of_ne_image (st : St) (rq : UpReq) (uid pid a b : String)
    (h : rq.type.getD "" ≠ "image") :
    (insertNode st rq uid pid a b).2.jobs = st.jobs := by
  unfold insertNode
  by_cases hfo : rq.type.getD "" = "folder" <;> simp [hfo, h]

lemma insertNode_jobs_image (st : St) (rq : UpReq) (uid pid a b : String)
    (h : rq.type.getD "" = "image") :
    (insertNode st rq uid pid a b).2.jobs =
      st.jobs ++ [⟨a, uid, 3, 5000⟩] := by
  unfold insertNode
  rw [if_neg (by simp [h])]
  simp [h]

lemma insertNode_status (st : St) (rq : UpReq) (uid pid a b : String) :
    rspStatus (insertNode st rq uid pid a b).1 = 201 := by
  unfold insertNode
  by_cases h : rq.type.getD "" = "folder" <;> simp [h, rspStatus]

lemma insertNode_files (st : St) (rq : UpReq) (uid pid a b : String) :
    ∃ tl, (insertNode st rq uid pid a b).2.files = st.files ++ tl := by
  unfold insertNode
  by_cases h : rq.type.getD "" = "folder"
  · rw [if_pos h]; exact ⟨_, rfl⟩
  · rw [if_neg h]; exact ⟨_, rfl⟩

lemma postUpload_ok (st : St) (rq : UpReq) (a b uid : String)
    (hres : tokenResolve st rq.token = some uid)
    (hname : truthyS rq.name = true)
    (hty : (rq.type.getD "") ∈ (["folder", "file", "image"] : List String))
    (hdata : ¬(truthyD rq.data = false ∧ rq.type.getD "" ≠ "folder"))
    (hpok : parentRef rq.parentId = "0" ∨
      ∃ pf, findById st.files (parentRef rq.parentId) = some pf ∧
        pf.ftype = "folder") :
    postUpload st rq a b = insertNode st rq uid (parentRef rq.parentId) a b := by
  simp only [postUpload, hres]
  rw [if_neg (by simp [hname]), if_neg (fun hc => hc hty), if_neg hdata]
  by_cases h0 : parentRef rq.parentId = "0"
  · rw [if_pos h0]
  · rw [if_neg h0]
    rcases hpok with h0' | ⟨pf, hpf, hpft⟩
    · exact absurd h0' h0
    · rw [hpf]
      simp [hpft]

lemma postUpload_jobs_of_ne_image (st : St) (rq : UpReq) (a b : String)
    (h : rq.type ≠ some "image") :
    (postUpload st rq a b).2.jobs = st.jobs := by
  have h' : rq.type.getD "" ≠ "image" := by
    cases ht : rq.type with
    | none => simp
    | some v =>
      simp only [Option.getD_some]
      exact fun he => h (by rw [ht, he])
  unfold postUpload
  cases tokenResolve st rq.token with
  | none => rfl
  | some uid =>
    dsimp only
    by_cases h1 : truthyS rq.name = false
    · simp only [if_pos h1]
    · rw [if_neg h1]
      by_cases h2 : (rq.type.getD "") ∉ (["folder", "file", "image"] : List String)
      · simp only [if_pos h2]
      · rw [if_neg h2]
        by_cases h3 : truthyD rq.data = false ∧ rq.type.getD "" ≠ "folder"
        · simp only [if_pos h3]
        · rw [if_neg h3]
          by_cases h4 : parentRef rq.parentId = "0"
          · rw [if_pos h4]
            exact insertNode_jobs_of_ne_image st rq uid _ a b h'
          · rw [if_neg h4]
            cases hpf : findById st.files (parentRef rq.parentId) with
            | none => rfl
            | some pf =>
              by_cases h5 : pf.ftype = "folder"
              · simp only [h5, if_pos]
                exact insertNode_jobs_of_ne_image st rq uid _ a b h'
              · simp only [if_neg h5]

lemma postUpload_fst_jobs (fls : List FileDoc) (ss : List (String × String))
    (bl : List (String × List Nat)) (js js' : List Job) (rq : UpReq)
    (a b : String) :
    (postUpload ⟨fls, ss, bl, js⟩ rq a b).1 =
      (postUpload ⟨fls, ss, bl, js'⟩ rq a b).1 := by
  unfold postUpload
  rw [tokenResolve_only_sessions fls fls ss bl bl js js' rq.token]
  cases tokenResolve (⟨fls, ss, bl, js'⟩ : St) rq.token with
  | none => rfl
  | some uid =>
    dsimp only
    by_cases h1 : truthyS rq.name = false
    · simp only [if_pos h1]
    · simp only [if_neg h1]
      by_cases h2 : (rq.type.getD "") ∉ (["folder", "file", "image"] : List String)
      · simp only [if_pos h2]
      · simp only [if_neg h2]
        by_cases h3 : truthyD rq.data = false ∧ rq.type.getD "" ≠ "folder"
        · simp only [if_pos h3]
        · simp only [if_neg h3]
          by_cases h4 : parentRef rq.parentId = "0"
          · simp only [if_pos h4]
            exact insertNode_fst _ _ rq uid _ a b
          · simp only [if_neg h4]
            cases hpf : findById fls (parentRef rq.parentId) with
            | none => rfl
            | some pf =>
              dsimp only
              by_cases h5 : pf.ftype = "folder"
              · simp only [if_pos h5]
                exact insertNode_fst _ _ rq uid _ a b
              · simp only [if_neg h5]

/-! Claim theorems. -/

/-- C1, counterexample: `f2` is a public file owned by `ua`; the
requester `tb` resolves to the distinct user `ub`; the claim says the
fetch-one-node operation returns a public node to a non-owner, but
getShow answers 404 Not found. -/
theorem c1_counterexample :
    demoPub.isPublic = true ∧
    tokenResolve demoSt (some "tb") = some "ub" ∧
    demoPub.userId ≠ "ub" ∧
    findById demoSt.files "f2" = some demoPub ∧
    getShow demoSt (some "tb") "f2" = Rsp.fail 404 "Not found" := by
  refine ⟨rfl, rfl, by decide, rfl, rfl⟩

/-- C1 (amended): getShow queries the store by the pair (id, requester's
user id), so it returns the node exactly when the requester is the
owner; the visibility flag is never consulted, and a public node owned
by someone else yields the same 404 as a missing node. -/
theorem c1_get_show_owner_only (st : St) (t fid uid : String) (f : FileDoc)
    (hres : tokenResolve st (some t) = some uid)
    (hnd : (st.files.map FileDoc.fid).Nodup)
    (hf : findById st.files fid = some f) :
    (f.userId = uid → getShow st (some t) fid = Rsp.doc 200 (docJson f)) ∧
    (f.userId ≠ uid → getShow st (some t) fid = Rsp.fail 404 "Not found") := by
  have h := getShow_resolved st t fid uid f hres hnd hf
  constructor
  · intro he
    rw [h, if_pos (by simp [he])]
  · intro he
    rw [h, if_neg (by simp [he])]

/-- C1 witness: owner `ta` fetches their private file `f1` and gets it;
non-owner `tb` fetches the public file `f2` of `ua` and gets 404. -/
theorem c1_witness :
    getShow demoSt (some "ta") "f1" = Rsp.doc 200 (docJson demoDoc) ∧
    getShow demoSt (some "tb") "f2" = Rsp.fail 404 "Not found" := by
  have h1 := c1_get_show_owner_only demoSt "ta" "f1" "ua" demoDoc rfl
    (by decide) rfl
  have h2 := c1_get_show_owner_only demoSt "tb" "f2" "ub" demoPub rfl
    (by decide) rfl
  exact ⟨h1.1 rfl, h2.2 (by decide)⟩

/-- C3, counterexample: revoking the live token `ta` twice is an error
on the second call: getDisconnect answers 401 Unauthorized, not a
success, so the revoke endpoint is not idempotent as claimed. -/
theorem c3_counterexample :
    (getDisconnect demoSt (some "ta")).1 = Rsp.empty 204 ∧
    (getDisconnect (getDisconnect demoSt (some "ta")).2 (some "ta")).1 =
      Rsp.fail 401 "Unauthorized" := by
  exact ⟨rfl, rfl⟩

/-- C3 (amended): the store-level deletion underlying revoke is
idempotent — deleting an absent mapping removes nothing and `del` of an
already-deleted key is a no-op — but the revoke endpoint itself rejects
an absent or already-revoked token with 401 Unauthorized and leaves the
store unchanged. -/
theorem c3_revoke_absent_token (st : St) (t : String)
    (h : sget st t = none) :
    getDisconnect st (some t) = (Rsp.fail 401 "Unauthorized", st) ∧
    sdel st.sessions t = st.sessions ∧
    (∀ l : List (String × String), sdel (sdel l t) t = sdel l t) :=
  ⟨getDisconnect_absent st t h, sdel_of_absent st t h, fun l => sdel_idem l t⟩

/-- C3 witness: the token `tx` is absent from the demo store; revoking
it answers 401 and removes nothing. -/
theorem c3_witness :
    getDisconnect demoSt (some "tx") = (Rsp.fail 401 "Unauthorized", demoSt) ∧
    sdel demoSt.sessions "tx" = demoSt.sessions ∧
    sdel (sdel demoSt.sessions "tx") "tx" = sdel demoSt.sessions "tx" := by
  have h := c3_revoke_absent_token demoSt "tx" (by decide)
  exact ⟨h.1, h.2.1, h.2.2 demoSt.sessions⟩

/-- C7: reading the content of a folder-kind node fails with 400 "A
folder doesn't have content" for every caller — the token is arbitrary,
so owner, non-owner and unauthenticated callers all get it — and for
every visibility value, since the folder check precedes both. -/
theorem c7_folder_read_invalid (st : St) (tok : Option String) (fid : String)
    (f : FileDoc)
    (hf : findById st.files fid = some f)
    (hty : f.ftype = "folder") :
    getFile st tok fid = Rsp.fail 400 "A folder doesn't have content" := by
  simp only [getFile, hf]
  rw [if_pos (by simp [hty])]

/-- C7 witness: the private folder `d1` of user `ub` answers the folder
error to an unauthenticated caller, to its owner `tb`, and to the
non-owner `ta`. -/
theorem c7_witness :
    getFile demoSt none "d1" = Rsp.fail 400 "A folder doesn't have content" ∧
    getFile demoSt (some "tb") "d1" =
      Rsp.fail 400 "A folder doesn't have content" ∧
    getFile demoSt (some "ta") "d1" =
      Rsp.fail 400 "A folder doesn't have content" :=
  ⟨c7_folder_read_invalid demoSt none "d1" demoFolder rfl rfl,
   c7_folder_read_invalid demoSt (some "tb") "d1" demoFolder rfl rfl,
   c7_folder_read_invalid demoSt (some "ta") "d1" demoFolder rfl rfl⟩

/-- C2: on a private file-or-image node whose blob is stored, getFile
returns the stored bytes to the owner; every caller that does not
resolve to the owner — including the unauthenticated `none` — gets 404;
and after the owner publishes the node, getFile returns the same bytes
to every caller. -/
theorem c2_private_content (st : St) (ot fid lp : String) (bs : List Nat)
    (f : FileDoc)
    (hnd : (st.files.map FileDoc.fid).Nodup)
    (hf : findById st.files fid = some f)
    (hty : f.ftype ≠ "folder")
    (hpriv : f.isPublic = false)
    (hlp : f.localPath = some lp)
    (hb : getBlob st lp = some bs)
    (how : tokenResolve st (some ot) = some f.userId) :
    getFile st (some ot) fid = Rsp.raw 200 bs ∧
    (∀ tk : Option String, tokenResolve st tk ≠ some f.userId →
      getFile st tk fid = Rsp.fail 404 "Not found") ∧
    (∀ tk : Option String,
      getFile (putPublish st (some ot) fid).2 tk fid = Rsp.raw 200 bs) := by
  refine ⟨?_, ?_, ?_⟩
  · exact getFile_ok st (some ot) fid lp bs f hf hty (Or.inr how) hlp hb
  · intro tk htk
    exact getFile_denied st tk fid f hf hty hpriv htk
  · intro tk
    rw [putPublish_owner st ot fid f how hnd hf]
    have hf' : findById
        (updateFirst st.files fid (fun d => { d with isPublic := true })) fid =
        some { f with isPublic := true } := by
      rw [findById_updateFirst st.files fid
        (fun d => { d with isPublic := true }) (fun d => rfl), hf]
      rfl
    exact getFile_ok _ tk fid lp bs { f with isPublic := true } hf' hty
      (Or.inl rfl) hlp hb

/-- C2 witness: `f1` is the private file of `ua` with bytes "hello";
the owner reads it, the anonymous caller and the other user `tb` get
404, and after the owner publishes it both read the same bytes. -/
theorem c2_witness :
    getFile demoSt (some "ta") "f1" = Rsp.raw 200 [104, 101, 108, 108, 111] ∧
    getFile demoSt none "f1" = Rsp.fail 404 "Not found" ∧
    getFile demoSt (some "tb") "f1" = Rsp.fail 404 "Not found" ∧
    getFile (putPublish demoSt (some "ta") "f1").2 (some "tb") "f1" =
      Rsp.raw 200 [104, 101, 108, 108, 111] ∧
    getFile (putPublish demoSt (some "ta") "f1").2 none "f1" =
      Rsp.raw 200 [104, 101, 108, 108, 111] := by
  have h := c2_private_content demoSt "ta" "f1" "/tmp/files_manager/u1"
    [104, 101, 108, 108, 111] demoDoc (by decide) rfl (by decide) rfl rfl rfl rfl
  exact ⟨h.1, h.2.1 none (by decide), h.2.1 (some "tb") (by decide),
    h.2.2 (some "tb"), h.2.2 none⟩

/-- C4: postUpload reports validation failures in the fixed order
missing name, then invalid kind, then missing data for non-folder
kinds, then — only when the parent reference is not the root sentinel
"0" — parent not found, then parent not a folder; each conjunct holds
for arbitrary later fields, so a request failing an earlier check never
reaches a later one, and a request passing them all with a root parent
succeeds with 201. -/
theorem c4_validation_order (st : St) (rq : UpReq) (a b uid : String)
    (hres : tokenResolve st rq.token = some uid) :
    (truthyS rq.name = false →
      postUpload st rq a b = (Rsp.fail 400 "Missing name", st)) ∧
    (truthyS rq.name = true →
      (rq.type.getD "") ∉ (["folder", "file", "image"] : List String) →
      postUpload st rq a b = (Rsp.fail 400 "Missing type", st)) ∧
    (truthyS rq.name = true →
      (rq.type.getD "") ∈ (["folder", "file", "image"] : List String) →
      truthyD rq.data = false → rq.type.getD "" ≠ "folder" →
      postUpload st rq a b = (Rsp.fail 400 "Missing data", st)) ∧
    (truthyS rq.name = true →
      (rq.type.getD "") ∈ (["folder", "file", "image"] : List String) →
      ¬(truthyD rq.data = false ∧ rq.type.getD "" ≠ "folder") →
      parentRef rq.parentId ≠ "0" →
      findById st.files (parentRef rq.parentId) = none →
      postUpload st rq a b = (Rsp.fail 400 "Parent not found", st)) ∧
    (∀ pf : FileDoc, truthyS rq.name = true →
      (rq.type.getD "") ∈ (["folder", "file", "image"] : List String) →
      ¬(truthyD rq.data = false ∧ rq.type.getD "" ≠ "folder") →
      parentRef rq.parentId ≠ "0" →
      findById st.files (parentRef rq.parentId) = some pf →
      pf.ftype ≠ "folder" →
      postUpload st rq a b = (Rsp.fail 400 "Parent is not a folder", st)) ∧
    (truthyS rq.name = true →
      (rq.type.getD "") ∈ (["folder", "file", "image"] : List String) →
      ¬(truthyD rq.data = false ∧ rq.type.getD "" ≠ "folder") →
      parentRef rq.parentId = "0" →
      rspStatus (postUpload st rq a b).1 = 201) := by
  refine ⟨?_, ?_, ?_, ?_, ?_, ?_⟩
  · intro h1
    simp only [postUpload, hres]
    rw [if_pos h1]
  · intro h1 h2
    simp only [postUpload, hres]
    rw [if_neg (by simp [h1]), if_pos h2]
  · intro h1 h2 h3 h4
    simp only [postUpload, hres]
    rw [if_neg (by simp [h1]), if_neg (fun hc => hc h2), if_pos ⟨h3, h4⟩]
  · intro h1 h2 h3 h4 h5
    simp only [postUpload, hres]
    rw [if_neg (by simp [h1]), if_neg (fun hc => hc h2), if_neg h3,
      if_neg h4, h5]
  · intro pf h1 h2 h3 h4 h5 h6
    simp only [postUpload, hres]
    rw [if_neg (by simp [h1]), if_neg (fun hc => hc h2), if_neg h3,
      if_neg h4, h5]
    simp [h6]
  · intro h1 h2 h3 h4
    rw [postUpload_ok st rq a b uid hres h1 h2 h3 (Or.inl h4)]
    exact insertNode_status st rq uid _ a b

/-- C4 witness: in the demo store, a request missing its name fails
with "Missing name" even though its kind is also absent from the
enumeration of a later request; a bad kind fails with "Missing type"
even though data is present; a file without data fails with "Missing
data"; a nonexistent parent fails with "Parent not found"; a file
parent fails with "Parent is not a folder"; and a folder create at the
root succeeds. -/
theorem c4_witness :
    postUpload demoSt rqNoName "n" "u" =
      (Rsp.fail 400 "Missing name", demoSt) ∧
    postUpload demoSt rqBadType "n" "u" =
      (Rsp.fail 400 "Missing type", demoSt) ∧
    postUpload demoSt rqNoData "n" "u" =
      (Rsp.fail 400 "Missing data", demoSt) ∧
    postUpload demoSt rqGhostParent "n" "u" =
      (Rsp.fail 400 "Parent not found", demoSt) ∧
    postUpload demoSt rqFileParent "n" "u" =
      (Rsp.fail 400 "Parent is not a folder", demoSt) ∧
    rspStatus (postUpload demoSt rqFolder "n" "u").1 = 201 := by
  refine ⟨?_, ?_, ?_, ?_, ?_, ?_⟩
  · exact (c4_validation_order demoSt rqNoName "n" "u" "ua" rfl).1 (by decide)
  · exact (c4_validation_order demoSt rqBadType "n" "u" "ua" rfl).2.1
      (by decide) (by decide)
  · exact (c4_validation_order demoSt rqNoData "n" "u" "ua" rfl).2.2.1
      (by decide) (by decide) (by decide) (by decide)
  · exact (c4_validation_order demoSt rqGhostParent "n" "u" "ua" rfl).2.2.2.1
      (by decide) (by decide) (by decide) (by decide) (by decide)
  · exact (c4_validation_order demoSt rqFileParent "n" "u" "ua" rfl).2.2.2.2.1
      demoDoc (by decide) (by decide) (by decide) (by decide) (by decide)
      (by decide)
  · exact (c4_validation_order demoSt rqFolder "n" "u" "ua" rfl).2.2.2.2.2
      (by decide) (by decide) (by decide) (by decide)

/-- C5: exactly one thumbnail job with payload (insertedId, ownerId)
and retry options attempts 3, fixed 5000 ms delay is enqueued by a
successful image create; a non-image request never enqueues; and the
caller-visible response is independent of the job-queue state, so the
enqueue outcome cannot affect the create's success result. -/
theorem c5_image_thumbnail_job (st : St) (rq : UpReq) (a b : String) :
    (rq.type ≠ some "image" → (postUpload st rq a b).2.jobs = st.jobs) ∧
    (∀ uid, tokenResolve st rq.token = some uid → rq.type = some "image" →
      truthyS rq.name = true → truthyD rq.data = true →
      (parentRef rq.parentId = "0" ∨
        ∃ pf, findById st.files (parentRef rq.parentId) = some pf ∧
          pf.ftype = "folder") →
      (postUpload st rq a b).2.jobs = st.jobs ++ [⟨a, uid, 3, 5000⟩] ∧
      rspStatus (postUpload st rq a b).1 = 201) ∧
    (∀ J : List Job, (postUpload { st with jobs := J } rq a b).1 =
      (postUpload st rq a b).1) := by
  refine ⟨fun h => postUpload_jobs_of_ne_image st rq a b h, ?_, ?_⟩
  · intro uid hres himg hname hdata hpok
    have htyg : rq.type.getD "" = "image" := by rw [himg]; rfl
    have hty : (rq.type.getD "") ∈ (["folder", "file", "image"] : List String) := by
      rw [htyg]; simp
    have hd : ¬(truthyD rq.data = false ∧ rq.type.getD "" ≠ "folder") := by
      intro hc
      rw [hdata] at hc
      simp at hc
    rw [postUpload_ok st rq a b uid hres hname hty hd hpok]
    exact ⟨insertNode_jobs_image st rq uid _ a b htyg,
      insertNode_status st rq uid _ a b⟩
  · intro J
    exact postUpload_fst_jobs st.files st.sessions st.blobs J st.jobs rq a b

/-- C5 witness: the image create enqueues exactly the job
(x2, ua, attempts 3, delay 5000) and succeeds with 201; the plain-file
create enqueues nothing; and the response is unchanged when the queue
already holds an unrelated job. -/
theorem c5_witness :
    (postUpload demoSt rqImage "x2" "u7").2.jobs =
      demoSt.jobs ++ [(⟨"x2", "ua", 3, 5000⟩ : Job)] ∧
    rspStatus (postUpload demoSt rqImage "x2" "u7").1 = 201 ∧
    (postUpload demoSt rqFileRoot "n1" "u9").2.jobs = demoSt.jobs ∧
    (postUpload { demoSt with jobs := [⟨"zz", "zz", 1, 7⟩] }
        rqImage "x2" "u7").1 =
      (postUpload demoSt rqImage "x2" "u7").1 := by
  have h := c5_image_thumbnail_job demoSt rqImage "x2" "u7"
  have h2 := h.2.1 "ua" rfl rfl (by decide) (by decide) (Or.inl (by decide))
  have h3 := c5_image_thumbnail_job demoSt rqFileRoot "n1" "u9"
  exact ⟨h2.1, h2.2, h3.1 (by decide), h.2.2 [⟨"zz", "zz", 1, 7⟩]⟩

/-- C6: getIndex serves exactly the window positions page*20 .. +20 of
the creation-ordered list of documents matching the (owner, parent)
filter; at most 20 documents are returned; with unique ids consecutive
pages are disjoint; and the concatenation of consecutive pages is a
sublist of the matching list, hence in creation order. -/
theorem c6_pagination (st : St) (tok : Option String) (pq : Option String)
    (p : Nat) (uid : String)
    (hres : tokenResolve st tok = some uid) :
    getIndex st tok pq p = Rsp.docs 200 (pageOf st uid (parentRef pq) p) ∧
    (pageOf st uid (parentRef pq) p).length ≤ 20 ∧
    ((st.files.map FileDoc.fid).Nodup →
      ∀ x, x ∈ pageOf st uid (parentRef pq) p →
        x ∉ pageOf st uid (parentRef pq) (p + 1)) ∧
    List.Sublist
      (pageOf st uid (parentRef pq) p ++ pageOf st uid (parentRef pq) (p + 1))
      (st.files.filter
        (fun d => d.userId == uid && d.parentId == parentRef pq)) := by
  have hdrop : ∀ q : List FileDoc,
      q.drop ((p + 1) * 20) = (q.drop (p * 20)).drop 20 := by
    intro q
    rw [List.drop_drop]
    congr 1
    ring
  refine ⟨?_, ?_, ?_, ?_⟩
  · simp only [getIndex, hres]
    rfl
  · simp only [pageOf]
    exact List.length_take_le _ _
  · intro hnd x hx hx'
    simp only [pageOf] at hx hx'
    have hmnd : (st.files.filter
        (fun d => d.userId == uid && d.parentId == parentRef pq)).Nodup :=
      (hnd.sublist ((List.filter_sublist _).map FileDoc.fid)).of_map
    have hXnd : ((st.files.filter
        (fun d => d.userId == uid && d.parentId == parentRef pq)).drop
          (p * 20)).Nodup :=
      hmnd.sublist (List.drop_sublist _ _)
    have hx2 : x ∈ ((st.files.filter
        (fun d => d.userId == uid && d.parentId == parentRef pq)).drop
          (p * 20)).drop 20 := by
      rw [← hdrop]
      exact List.take_subset _ _ hx'
    exact List.disjoint_take_drop hXnd (le_refl 20) hx hx2
  · simp only [pageOf, hdrop]
    rw [← List.take_add]
    exact (List.take_sublist _ _).trans (List.drop_sublist _ _)

/-- C6 witness: user `ua` at the root matches two documents; page 0 is
served as the whole window, has at most 20 entries, and its member
`demoDoc` is absent from page 1. -/
theorem c6_witness :
    getIndex demoSt (some "ta") none 0 =
      Rsp.docs 200 (pageOf demoSt "ua" "0" 0) ∧
    (pageOf demoSt "ua" "0" 0).length ≤ 20 ∧
    demoDoc ∉ pageOf demoSt "ua" "0" 1 := by
  have h := c6_pagination demoSt (some "ta") none 0 "ua" rfl
  exact ⟨h.1, h.2.1, h.2.2.1 (by decide) demoDoc (by decide)⟩

/-- C8: publish and unpublish leave every field of every stored
document except the visibility flag unchanged (the frame projection of
the collection is preserved); create only appends, leaving every
existing document — visibility included — untouched; and session revoke
never touches the collection. -/
theorem c8_only_visibility_mutates (st : St) (tok : Option String)
    (fileId : String) (rq : UpReq) (a b : String) :
    (putPublish st tok fileId).2.files.map frameOf = st.files.map frameOf ∧
    (putUnpublish st tok fileId).2.files.map frameOf = st.files.map frameOf ∧
    (∃ tl, (postUpload st rq a b).2.files = st.files ++ tl) ∧
    (getDisconnect st tok).2.files = st.files := by
  refine ⟨?_, ?_, ?_, ?_⟩
  · unfold putPublish
    cases tokenResolve st tok with
    | none => rfl
    | some uid =>
      dsimp only
      cases st.files.find? (fun d => d.fid == fileId && d.userId == uid) with
      | none => rfl
      | some w =>
        dsimp only
        cases findById (updateFirst st.files fileId
            (fun d => { d with isPublic := true })) fileId with
        | none => exact updateFirst_map_frameOf st.files fileId _ (fun d => rfl)
        | some uf => exact updateFirst_map_frameOf st.files fileId _ (fun d => rfl)
  · unfold putUnpublish
    cases tokenResolve st tok with
    | none => rfl
    | some uid =>
      dsimp only
      cases st.files.find? (fun d => d.fid == fileId && d.userId == uid) with
      | none => rfl
      | some w =>
        dsimp only
        cases findById (updateFirst st.files fileId
            (fun d => { d with isPublic := false })) fileId with
        | none => exact updateFirst_map_frameOf st.files fileId _ (fun d => rfl)
        | some uf => exact updateFirst_map_frameOf st.files fileId _ (fun d => rfl)
  · unfold postUpload
    cases tokenResolve st rq.token with
    | none => exact ⟨[], by simp⟩
    | some uid =>
      dsimp only
      by_cases h1 : truthyS rq.name = false
      · rw [if_pos h1]; exact ⟨[], by simp⟩
      · rw [if_neg h1]
        by_cases h2 : (rq.type.getD "") ∉ (["folder", "file", "image"] : List String)
        · rw [if_pos h2]; exact ⟨[], by simp⟩
        · rw [if_neg h2]
          by_cases h3 : truthyD rq.data = false ∧ rq.type.getD "" ≠ "folder"
          · rw [if_pos h3]; exact ⟨[], by simp⟩
          · rw [if_neg h3]
            by_cases h4 : parentRef rq.parentId = "0"
            · rw [if_pos h4]
              exact insertNode_files st rq uid _ a b
            · rw [if_neg h4]
              cases hpf : findById st.files (parentRef rq.parentId) with
              | none => exact ⟨[], by simp⟩
              | some pf =>
                dsimp only
                by_cases h5 : pf.ftype = "folder"
                · rw [if_pos h5]
                  exact insertNode_files st rq uid _ a b
                · rw [if_neg h5]; exact ⟨[], by simp⟩
  · unfold getDisconnect
    cases tok with
    | none => rfl
    | some t =>
      dsimp only
      by_cases h0 : (t == "") = true
      · rw [if_pos h0]
      · rw [if_neg h0]
        cases sget st t with
        | none => rfl
        | some u => rfl

/-- C9: the parent check of create looks only at existence and
folder-kind: with an arbitrary existing folder parent — hypothesized
here to belong to a different user and to be private — an otherwise
valid create succeeds with 201 and appends one document. -/
theorem c9_parent_ownership_ignored (st : St) (rq : UpReq) (a b uid : String)
    (pf : FileDoc)
    (hres : tokenResolve st rq.token = some uid)
    (hname : truthyS rq.name = true)
    (hty : (rq.type.getD "") ∈ (["folder", "file", "image"] : List String))
    (hdata : ¬(truthyD rq.data = false ∧ rq.type.getD "" ≠ "folder"))
    (hpf : findById st.files (parentRef rq.parentId) = some pf)
    (hpfolder : pf.ftype = "folder")
    (hother : pf.userId ≠ uid)
    (hpriv : pf.isPublic = false) :
    rspStatus (postUpload st rq a b).1 = 201 ∧
    (postUpload st rq a b).2.files.length = st.files.length + 1 := by
  rw [postUpload_ok st rq a b uid hres hname hty hdata
    (Or.inr ⟨pf, hpf, hpfolder⟩)]
  constructor
  · exact insertNode_status st rq uid _ a b
  · unfold insertNode
    by_cases h : rq.type.getD "" = "folder" <;> simp [h]

/-- C9 witness: user `ua` creates `a.txt` under `d1`, the private
folder of the other user `ub`, and the create succeeds. -/
theorem c9_witness :
    rspStatus (postUpload demoSt rqOtherParent "n3" "u3").1 = 201 ∧
    (postUpload demoSt rqOtherParent "n3" "u3").2.files.length =
      demoSt.files.length + 1 :=
  c9_parent_ownership_ignored demoSt rqOtherParent "n3" "u3" "ua" demoFolder
    rfl (by decide) (by decide) (by decide) rfl rfl (by decide) rfl

/-- C10: for a file node, getShow's 200 body is the raw stored document
and carries the `localPath` key, and the 200 bodies of both publish and
unpublish likewise, while the 201 body of create is built from `id`
plus the folderData spread and carries no `localPath` key. -/
theorem c10_locator_exposure (st : St) (t fid uid lp : String)
    (f : FileDoc) (rq : UpReq) (a b : String)
    (hres : tokenResolve st (some t) = some uid)
    (hnd : (st.files.map FileDoc.fid).Nodup)
    (hf : findById st.files fid = some f)
    (hown : f.userId = uid)
    (hlp : f.localPath = some lp)
    (htok : rq.token = some t)
    (hname : truthyS rq.name = true)
    (hty : rq.type = some "file")
    (hdata : truthyD rq.data = true)
    (hpid : parentRef rq.parentId = "0") :
    (getShow st (some t) fid = Rsp.doc 200 (docJson f) ∧
      "localPath" ∈ (docJson f).map Prod.fst) ∧
    ((putPublish st (some t) fid).1 =
        Rsp.doc 200 (docJson { f with isPublic := true }) ∧
      "localPath" ∈ (docJson { f with isPublic := true }).map Prod.fst) ∧
    ((putUnpublish st (some t) fid).1 =
        Rsp.doc 200 (docJson { f with isPublic := false }) ∧
      "localPath" ∈ (docJson { f with isPublic := false }).map Prod.fst) ∧
    ((postUpload st rq a b).1 =
        Rsp.doc 201 (uploadJson
          ⟨a, uid, rq.name.getD "", "file", rq.isPublic.getD false, "0",
           some ("/tmp/files_manager/" ++ b)⟩) ∧
      ∀ d : FileDoc, "localPath" ∉ (uploadJson d).map Prod.fst) := by
  refine ⟨⟨?_, ?_⟩, ⟨?_, ?_⟩, ⟨?_, ?_⟩, ⟨?_, ?_⟩⟩
  · have h := getShow_resolved st t fid uid f hres hnd hf
    rw [h, if_pos (by simp [hown])]
  · simp [docJson, hlp]
  · rw [putPublish_owner st t fid f (by rw [hown]; exact hres) hnd hf]
  · simp [docJson, hlp]
  · rw [putUnpublish_owner st t fid f (by rw [hown]; exact hres) hnd hf]
  · simp [docJson, hlp]
  · have hres' : tokenResolve st rq.token = some uid := by
      rw [htok]; exact hres
    have htyg : rq.type.getD "" = "file" := by rw [hty]; rfl
    have hd : ¬(truthyD rq.data = false ∧ rq.type.getD "" ≠ "folder") := by
      intro hc
      rw [hdata] at hc
      simp at hc
    rw [postUpload_ok st rq a b uid hres' hname (by rw [htyg]; simp) hd
      (Or.inl hpid)]
    simp [insertNode, htyg, hpid]
  · intro d
    simp [uploadJson]

/-- C10 witness: getShow serves the stored document of `f1` whose body
carries `localPath`, publish and unpublish serve the updated document
whose bodies also carry it, while the create of `b.txt` answers a 201
body with no `localPath` key. -/
theorem c10_witness :
    getShow demoSt (some "ta") "f1" = Rsp.doc 200 (docJson demoDoc) ∧
    "localPath" ∈ (docJson demoDoc).map Prod.fst ∧
    (putPublish demoSt (some "ta") "f1").1 =
      Rsp.doc 200 (docJson { demoDoc with isPublic := true }) ∧
    "localPath" ∈ (docJson { demoDoc with isPublic := true }).map Prod.fst ∧
    (putUnpublish demoSt (some "ta") "f1").1 =
      Rsp.doc 200 (docJson { demoDoc with isPublic := false }) ∧
    "localPath" ∈ (docJson { demoDoc with isPublic := false }).map Prod.fst ∧
    (postUpload demoSt rqFileRoot "n1" "u9").1 =
      Rsp.doc 201 (uploadJson ⟨"n1", "ua", "b.txt", "file", false, "0",
        some "/tmp/files_manager/u9"⟩) ∧
    "localPath" ∉ (uploadJson ⟨"n1", "ua", "b.txt", "file", false, "0",
        some "/tmp/files_manager/u9"⟩).map Prod.fst := by
  have h := c10_locator_exposure demoSt "ta" "f1" "ua"
    "/tmp/files_manager/u1" demoDoc rqFileRoot "n1" "u9" rfl (by decide) rfl
    rfl rfl rfl (by decide) rfl (by decide) (by decide)
  exact ⟨h.1.1, h.1.2, h.2.1.1, h.2.1.2, h.2.2.1.1, h.2.2.1.2,
    h.2.2.2.1, h.2.2.2.2 _⟩

end FilesManager
